import Mathlib

/-!
Shallow embedding of the Tether backend's reputation and statistics core
(models Link/User in part_003, models/Team.js, and the link routes in
routes/links.js).  JavaScript numbers are modelled as rationals, dates as
rational timestamps passed in as a `now` parameter, and ObjectIds as
naturals.  Mongoose's per-document modified-path tracking, which the
pre-save hooks consult, is modelled by explicit boolean flags on the
structures.
-/

namespace Tether

/-- Link status enum (part_003, linkSchema `status`). -/
inductive LinkStatus
| pending
| scheduled
| inProgress
| completed
| cancelled
| noShow
deriving DecidableEq, Repr

/-- Outcome status enum (part_003, linkSchema `outcomes.status`). -/
inductive OutcomeStatus
| pending
| inProgress
| completed
| blocked
deriving DecidableEq, Repr

/-- Outcome type enum (part_003, linkSchema `outcomes.type`). -/
inductive OutcomeType
| decision
| actionItem
| blocker
| insight
| nextSteps
deriving DecidableEq, Repr

/-- Participant role enum (part_003, linkSchema `participants.role`). -/
inductive ParticipantRole
| initiator
| participant
| observer
deriving DecidableEq, Repr

/-- Meeting type enum (part_003, linkSchema `meetingType`). -/
inductive MeetingType
| quickSync
| review
| planning
| decision
| brainstorm
| statusUpdate
deriving DecidableEq, Repr

/-- One entry of linkSchema's `outcomes` array.  The source field `type`
is a Lean keyword and is rendered `otype`. -/
structure Outcome where
  otype : OutcomeType
  description : String
  assignedTo : Option Nat
  dueDate : Option ℚ
  status : OutcomeStatus
deriving DecidableEq, Repr

/-- One entry of linkSchema's `participants` array. -/
structure LinkParticipant where
  userId : Nat
  role : ParticipantRole
  joinedAt : ℚ
deriving DecidableEq, Repr

/-- linkSchema's `metrics` sub-document. -/
structure LinkMetrics where
  participantCount : ℚ
  outcomeCount : ℚ
  completionRate : ℚ
deriving DecidableEq, Repr

/-- A Link document (part_003, linkSchema), restricted to the schema
fields the reputation/lifecycle core reads or writes.  The two
`modified…` flags stand for mongoose's `isModified('participants')` and
`isModified('outcomes')`, consulted in the pre-save hook; they are false
on a freshly loaded document and reset by a save. -/
structure Link where
  title : String
  purpose : String
  team : Nat
  participants : List LinkParticipant
  status : LinkStatus
  scheduledAt : Option ℚ
  startedAt : Option ℚ
  completedAt : Option ℚ
  duration : ℚ
  meetingType : MeetingType
  outcomes : List Outcome
  notes : String
  metrics : LinkMetrics
  modifiedParticipants : Bool
  modifiedOutcomes : Bool
deriving DecidableEq, Repr

/-- Count of outcomes whose status is COMPLETED
(`outcomes.filter(o => o.status === 'COMPLETED').length`). -/
def completedOutcomeCount (os : List Outcome) : Nat :=
  (os.filter (fun o => o.status == OutcomeStatus.completed)).length

/-- linkSchema.methods.addParticipant (part_003): push a participant
unless the userId is already present, then refresh
`metrics.participantCount`. -/
def Link.addParticipant (l : Link) (now : ℚ) (userId : Nat)
    (role : ParticipantRole) : Link :=
  if l.participants.any (fun p => p.userId == userId) then l
  else
    let ps := l.participants ++ [⟨userId, role, now⟩]
    { l with participants := ps,
             metrics := { l.metrics with participantCount := (ps.length : ℚ) },
             modifiedParticipants := true }

/-- linkSchema.methods.startMeeting (part_003): set status IN_PROGRESS
and record startedAt. -/
def Link.startMeeting (l : Link) (now : ℚ) : Link :=
  { l with status := LinkStatus.inProgress, startedAt := some now }

/-- linkSchema.methods.completeMeeting (part_003): set status COMPLETED,
record completedAt, duration and notes, recompute completionRate when
outcomes exist, and refresh outcomeCount. -/
def Link.completeMeeting (l : Link) (now duration : ℚ) (notes : String) :
    Link :=
  let l1 := { l with status := LinkStatus.completed,
                     completedAt := some now,
                     duration := duration,
                     notes := notes }
  let l2 :=
    if 0 < l1.outcomes.length then
      { l1 with metrics := { l1.metrics with completionRate :=
          ((completedOutcomeCount l1.outcomes : ℚ) / (l1.outcomes.length : ℚ)) * 100 } }
    else l1
  { l2 with metrics := { l2.metrics with outcomeCount := (l2.outcomes.length : ℚ) } }

/-- linkSchema.methods.addOutcome (part_003): append an outcome with
status PENDING and refresh `metrics.outcomeCount` (the method does not
itself touch completionRate; the pre-save hook does). -/
def Link.addOutcome (l : Link) (otype : OutcomeType) (description : String)
    (assignedTo : Option Nat) (dueDate : Option ℚ) : Link :=
  let os := l.outcomes ++ [⟨otype, description, assignedTo, dueDate, OutcomeStatus.pending⟩]
  { l with outcomes := os,
           metrics := { l.metrics with outcomeCount := (os.length : ℚ) },
           modifiedOutcomes := true }

/-- linkSchema.pre('save') (part_003): when participants were modified,
refresh participantCount; when outcomes were modified, refresh
outcomeCount and, if any outcomes exist, completionRate.  Saving clears
the modified-path flags. -/
def Link.preSave (l : Link) : Link :=
  let l1 :=
    if l.modifiedParticipants then
      { l with metrics := { l.metrics with participantCount := (l.participants.length : ℚ) } }
    else l
  let l2 :=
    if l1.modifiedOutcomes then
      let l2a := { l1 with metrics := { l1.metrics with outcomeCount := (l1.outcomes.length : ℚ) } }
      if 0 < l1.outcomes.length then
        { l2a with metrics := { l2a.metrics with completionRate :=
            ((completedOutcomeCount l1.outcomes : ℚ) / (l1.outcomes.length : ℚ)) * 100 } }
      else l2a
    else l1
  { l2 with modifiedParticipants := false, modifiedOutcomes := false }

/-- The lifecycle errors the link routes report with HTTP 400: the
"Invalid status" responses of POST /:linkId/start and
POST /:linkId/complete (routes/links.js), the spec's
InvalidStateTransition. -/
inductive LinkError
| invalidStateTransition
deriving DecidableEq, Repr

/-- JavaScript `x || 0` for a numeric `x` (routes/links.js passes
`duration || 0` to completeMeeting). -/
def jsOrZero (x : ℚ) : ℚ := if x = 0 then 0 else x

/-- JavaScript `s || ''` for a string `s` (routes/links.js passes
`notes || ''` to completeMeeting). -/
def jsOrEmpty (s : String) : String := if s = "" then "" else s

/-- POST /api/links/:linkId/start (routes/links.js lines 424-432), after
the auth/lookup plumbing: reject with 400 unless status is SCHEDULED or
PENDING, otherwise run startMeeting and save.  On rejection the loaded
document is returned untouched. -/
def startFlow (l : Link) (now : ℚ) : Link × Option LinkError :=
  if l.status ≠ LinkStatus.scheduled ∧ l.status ≠ LinkStatus.pending then
    (l, some LinkError.invalidStateTransition)
  else ((l.startMeeting now).preSave, none)

/-- POST /api/links/:linkId/complete (routes/links.js lines 486-494),
after the auth/lookup plumbing: reject with 400 unless status is
IN_PROGRESS, otherwise run completeMeeting(duration || 0, notes || '')
and save. -/
def completeFlow (l : Link) (now duration : ℚ) (notes : String) :
    Link × Option LinkError :=
  if l.status ≠ LinkStatus.inProgress then
    (l, some LinkError.invalidStateTransition)
  else ((l.completeMeeting now (jsOrZero duration) (jsOrEmpty notes)).preSave, none)

/-- POST /api/links/:linkId/outcomes (routes/links.js), after the
auth/lookup plumbing: addOutcome then save. -/
def addOutcomeFlow (l : Link) (otype : OutcomeType) (description : String)
    (assignedTo : Option Nat) (dueDate : Option ℚ) : Link :=
  (l.addOutcome otype description assignedTo dueDate).preSave

/-- The derived-metrics invariant of the spec (§4.1/§4.2/§8):
outcomeCount mirrors the length of `outcomes`, and completionRate is 0
with no outcomes and exactly 100·completed/total otherwise. -/
def metricsInv (l : Link) : Prop :=
  l.metrics.outcomeCount = (l.outcomes.length : ℚ) ∧
  l.metrics.completionRate =
    (if l.outcomes.length = 0 then 0
     else ((completedOutcomeCount l.outcomes : ℚ) / (l.outcomes.length : ℚ)) * 100)

instance (l : Link) : Decidable (metricsInv l) := by
  unfold metricsInv; infer_instance

/-- Team member role enum (models/Team.js, `members.role`). -/
inductive TeamRole
| owner
| pm
| dev
| design
| legal
| security
| bizOps
| stakeholder
deriving DecidableEq, Repr

/-- One entry of teamSchema's `members` array. -/
structure TeamMember where
  userId : Nat
  role : TeamRole
  joinedAt : ℚ
  isActive : Bool
deriving DecidableEq, Repr

/-- teamSchema's `settings.visibility` enum (PUBLIC/PRIVATE/RESTRICTED;
the source words are Lean keywords, hence the Vis suffix). -/
inductive TeamVisibility
| publicVis
| privateVis
| restrictedVis
deriving DecidableEq, Repr

/-- teamSchema's `settings` sub-document. -/
structure TeamSettings where
  visibility : TeamVisibility
  allowMemberInvites : Bool
  requireApproval : Bool
deriving DecidableEq, Repr

/-- teamSchema's `stats` sub-document. -/
structure TeamStats where
  totalLinks : ℚ
  averageResponseTime : ℚ
  responseRate : ℚ
  activeMembers : ℚ
deriving DecidableEq, Repr

/-- Team reputation badge enum (models/Team.js, `reputationBadge.type`). -/
inductive TeamBadge
| superResponders
| slowSteady
| ghostMode
| clearCommunicators
deriving DecidableEq, Repr

/-- teamSchema's `reputationBadge` sub-document.  The source field `type`
is a Lean keyword and is rendered `btype`. -/
structure ReputationBadge where
  btype : Option TeamBadge
  updatedAt : ℚ
  description : String
deriving DecidableEq, Repr

/-- Team status enum (models/Team.js). -/
inductive TeamStatus
| active
| paused
| completed
| archived
deriving DecidableEq, Repr

/-- A Team document (models/Team.js, teamSchema). -/
structure Team where
  name : String
  description : String
  productName : String
  productVersion : String
  owner : Nat
  members : List TeamMember
  settings : TeamSettings
  stats : TeamStats
  reputationBadge : ReputationBadge
  status : TeamStatus
  tags : List String
  lastActivity : ℚ
deriving DecidableEq, Repr

/-- `members.filter(member => member.isActive).length` (models/Team.js). -/
def activeMemberCount (ms : List TeamMember) : Nat :=
  (ms.filter (fun m => m.isActive)).length

/-- In-place update of the first member whose userId matches, as
performed on the entry returned by `members.find(...)` in addMember:
overwrite its role and set isActive true. -/
def upsertMemberRole (userId : Nat) (role : TeamRole) :
    List TeamMember → List TeamMember
  | [] => []
  | m :: ms =>
    if m.userId == userId then { m with role := role, isActive := true } :: ms
    else m :: upsertMemberRole userId role ms

/-- teamSchema.methods.addMember (models/Team.js lines 141-159): if a
member with this userId exists, overwrite its role and reactivate it,
else push a new active entry; then recompute stats.activeMembers. -/
def Team.addMember (t : Team) (now : ℚ) (userId : Nat) (role : TeamRole) :
    Team :=
  let ms :=
    if t.members.any (fun m => m.userId == userId) then
      upsertMemberRole userId role t.members
    else t.members ++ [⟨userId, role, now, true⟩]
  { t with members := ms,
           stats := { t.stats with activeMembers := (activeMemberCount ms : ℚ) } }

/-- In-place deactivation of the first member whose userId matches, as
performed on `members[memberIndex]` in removeMember. -/
def deactivateMember (userId : Nat) : List TeamMember → List TeamMember
  | [] => []
  | m :: ms =>
    if m.userId == userId then { m with isActive := false } :: ms
    else m :: deactivateMember userId ms

/-- teamSchema.methods.removeMember (models/Team.js lines 162-171):
soft-delete by findIndex; when no member matches (index -1) nothing at
all is mutated. -/
def Team.removeMember (t : Team) (userId : Nat) : Team :=
  if t.members.any (fun m => m.userId == userId) then
    let ms := deactivateMember userId t.members
    { t with members := ms,
             stats := { t.stats with activeMembers := (activeMemberCount ms : ℚ) } }
  else t

/-- teamSchema.methods.updateStats (models/Team.js lines 174-188):
totalLinks += linkCount unconditionally; when responseTime > 0 fold it
into the running weighted average using responseRate/100 as the prior
sample count; when responseRate > 0 overwrite stats.responseRate; always
stamp lastActivity. -/
def Team.updateStats (t : Team) (now linkCount responseTime responseRate : ℚ) :
    Team :=
  let s1 := { t.stats with totalLinks := t.stats.totalLinks + linkCount }
  let s2 :=
    if 0 < responseTime then
      let currentAvg := s1.averageResponseTime
      let totalResponses := s1.responseRate / 100
      { s1 with averageResponseTime :=
          (currentAvg * totalResponses + responseTime) / (totalResponses + 1) }
    else s1
  let s3 :=
    if 0 < responseRate then { s2 with responseRate := responseRate } else s2
  { t with stats := s3, lastActivity := now }

/-- The badge selection chain of
teamSchema.methods.calculateReputationBadge (models/Team.js
lines 195-207), as a function of the stats it reads. -/
def badgeFor (s : TeamStats) : TeamBadge :=
  if 90 ≤ s.responseRate ∧ s.averageResponseTime ≤ 2 then
    TeamBadge.superResponders
  else if 70 ≤ s.responseRate ∧ s.averageResponseTime ≤ 24 then
    TeamBadge.clearCommunicators
  else if 50 ≤ s.responseRate then TeamBadge.slowSteady
  else TeamBadge.ghostMode

/-- The description string paired with each badge in
calculateReputationBadge. -/
def badgeDescription : TeamBadge → String
  | TeamBadge.superResponders => "Team responds quickly and consistently"
  | TeamBadge.clearCommunicators => "Team maintains good communication flow"
  | TeamBadge.slowSteady => "Team responds but could be faster"
  | TeamBadge.ghostMode => "Team needs to improve responsiveness"

/-- teamSchema.methods.calculateReputationBadge (models/Team.js
lines 191-216): store the selected badge with a fresh updatedAt. -/
def Team.calculateReputationBadge (t : Team) (now : ℚ) : Team :=
  { t with reputationBadge :=
      { btype := some (badgeFor t.stats),
        updatedAt := now,
        description := badgeDescription (badgeFor t.stats) } }

/-- teamSchema.pre('save') (models/Team.js lines 219-224): recompute the
badge whenever the stats sub-document was modified. -/
def Team.preSave (t : Team) (now : ℚ) (modifiedStats : Bool) : Team :=
  if modifiedStats then t.calculateReputationBadge now else t

/-- User role enum (part_003, userSchema `role`). -/
inductive UserRole
| pm
| dev
| design
| legal
| security
| bizOps
| cxo
| stakeholder
deriving DecidableEq, Repr

/-- userSchema's `stats` sub-document (part_003): these four fields are
the whole of the schema's stats shape. -/
structure UserStats where
  totalLinks : ℚ
  averageResponseTime : ℚ
  responseRate : ℚ
  reputationScore : ℚ
deriving DecidableEq, Repr

/-- A User document (part_003, userSchema), restricted to the fields the
reputation core reads or writes. -/
structure User where
  email : String
  name : String
  role : UserRole
  stats : UserStats
  onboarded : Bool
deriving DecidableEq, Repr

/-- The score computed by userSchema.methods.calculateReputationScore
(part_003 lines 479-495) from the stats it reads: 100, plus
(responseRate - 50)·0.5, plus — only when averageResponseTime > 0 —
max(0, 24 - averageResponseTime)·2, plus totalLinks·5, clamped into
[0, 200] by Math.max(0, Math.min(200, score)). -/
def reputationScoreOf (s : UserStats) : ℚ :=
  let score1 := 100 + (s.responseRate - 50) * 0.5
  let score2 :=
    if 0 < s.averageResponseTime then
      score1 + max 0 (24 - s.averageResponseTime) * 2
    else score1
  let score3 := score2 + s.totalLinks * 5
  max 0 (min 200 score3)

/-- userSchema.methods.calculateReputationScore as the method: it stores
the recomputed score into stats.reputationScore. -/
def User.calculateReputationScore (u : User) : User :=
  { u with stats := { u.stats with reputationScore := reputationScoreOf u.stats } }

/-- userSchema.pre('save') (part_003 lines 498-503): recompute the
reputation score whenever the stats sub-document was modified. -/
def User.preSave (u : User) (modifiedStats : Bool) : User :=
  if modifiedStats then u.calculateReputationScore else u

/-- The user-stats update of POST /api/links (routes/links.js
lines 203-206): `User.findByIdAndUpdate(initiatorId, { $inc:
{ 'stats.linksCreated': 1 } })`.  findByIdAndUpdate is a query-level
update, so userSchema.pre('save') — and with it
calculateReputationScore — never runs; and 'stats.linksCreated' is not a
path of the user schema (whose link counter is stats.totalLinks), so
under the schema's default strict mode the $inc is stripped and no
schema field of the persisted user changes. -/
def linkCreationUserUpdate (u : User) : User := u

/-- Modelled from the spec: the user-stats side of link creation as
§4.4 and §4.5 describe it — link creation increments stats.totalLinks,
and the reputation score is recomputed and persisted every time stats
change.  Used only to exhibit how far the code's flow diverges. -/
def specLinkCreationUserUpdate (u : User) : User :=
  User.calculateReputationScore
    { u with stats := { u.stats with totalLinks := u.stats.totalLinks + 1 } }

/-- The activeMembers bookkeeping invariant of the spec (§8): the stored
count equals the number of active entries of `members`. -/
def activeMembersInv (t : Team) : Prop :=
  t.stats.activeMembers = (activeMemberCount t.members : ℚ)

instance (t : Team) : Decidable (activeMembersInv t) := by
  unfold activeMembersInv; infer_instance

/-- A concrete pending Link, as POST /api/links creates one. -/
def sampleLink : Link :=
  { title := "api sync", purpose := "align on api", team := 1,
    participants := [], status := LinkStatus.pending,
    scheduledAt := none, startedAt := none, completedAt := none,
    duration := 0, meetingType := MeetingType.quickSync,
    outcomes := [], notes := "",
    metrics := { participantCount := 0, outcomeCount := 0, completionRate := 0 },
    modifiedParticipants := false, modifiedOutcomes := false }

/-- A concrete completed Link with one completed and one pending
outcome, its metrics consistent. -/
def sampleCompletedLink : Link :=
  { sampleLink with
      status := LinkStatus.completed,
      outcomes :=
        [⟨OutcomeType.decision, "ship it", none, none, OutcomeStatus.completed⟩,
         ⟨OutcomeType.actionItem, "write docs", some 2, none, OutcomeStatus.pending⟩],
      metrics := { participantCount := 0, outcomeCount := 2, completionRate := 50 } }

/-- A concrete Team with zero links and a 50% response rate. -/
def sampleTeam : Team :=
  { name := "alpha", description := "", productName := "tether",
    productVersion := "v1.0", owner := 1, members := [],
    settings := { visibility := TeamVisibility.privateVis,
                  allowMemberInvites := true, requireApproval := false },
    stats := { totalLinks := 0, averageResponseTime := 4,
               responseRate := 50, activeMembers := 0 },
    reputationBadge := { btype := none, updatedAt := 0, description := "" },
    status := TeamStatus.active, tags := [], lastActivity := 0 }

/-- A concrete Team holding one inactive member, its activeMembers
count consistent. -/
def sampleTeamInactive : Team :=
  { sampleTeam with
      members := [⟨1, TeamRole.pm, 0, false⟩],
      stats := { totalLinks := 0, averageResponseTime := 4,
                 responseRate := 50, activeMembers := 0 } }

/-- A concrete freshly created user: default stats with the score the
creation-time pre-save recompute leaves (100 + (0-50)·0.5 = 75). -/
def sampleUser : User :=
  { email := "test1@test.com", name := "Test User 1", role := UserRole.pm,
    stats := { totalLinks := 0, averageResponseTime := 0,
               responseRate := 0, reputationScore := 75 },
    onboarded := false }

/-- A concrete in-progress Link, as startFlow leaves sampleLink. -/
def sampleInProgressLink : Link :=
  { sampleLink with status := LinkStatus.inProgress, startedAt := some 2 }

/-! ## Frame lemmas for the link pre-save hook and methods -/

theorem Link.preSave_status (l : Link) : l.preSave.status = l.status := by
  simp only [Link.preSave]
  split_ifs <;> rfl

theorem Link.preSave_startedAt (l : Link) :
    l.preSave.startedAt = l.startedAt := by
  simp only [Link.preSave]
  split_ifs <;> rfl

theorem Link.preSave_completedAt (l : Link) :
    l.preSave.completedAt = l.completedAt := by
  simp only [Link.preSave]
  split_ifs <;> rfl

theorem Link.preSave_duration (l : Link) : l.preSave.duration = l.duration := by
  simp only [Link.preSave]
  split_ifs <;> rfl

theorem Link.preSave_notes (l : Link) : l.preSave.notes = l.notes := by
  simp only [Link.preSave]
  split_ifs <;> rfl

theorem Link.preSave_outcomes (l : Link) : l.preSave.outcomes = l.outcomes := by
  simp only [Link.preSave]
  split_ifs <;> rfl

theorem Link.completeMeeting_status (l : Link) (now d : ℚ) (n : String) :
    (l.completeMeeting now d n).status = LinkStatus.completed := by
  simp only [Link.completeMeeting]
  split_ifs <;> rfl

theorem Link.completeMeeting_completedAt (l : Link) (now d : ℚ) (n : String) :
    (l.completeMeeting now d n).completedAt = some now := by
  simp only [Link.completeMeeting]
  split_ifs <;> rfl

theorem Link.completeMeeting_duration (l : Link) (now d : ℚ) (n : String) :
    (l.completeMeeting now d n).duration = d := by
  simp only [Link.completeMeeting]
  split_ifs <;> rfl

theorem Link.completeMeeting_notes (l : Link) (now d : ℚ) (n : String) :
    (l.completeMeeting now d n).notes = n := by
  simp only [Link.completeMeeting]
  split_ifs <;> rfl

theorem jsOrZero_eq (x : ℚ) : jsOrZero x = x := by
  unfold jsOrZero
  split_ifs with h
  · exact h.symm
  · rfl

theorem jsOrEmpty_eq (s : String) : jsOrEmpty s = s := by
  unfold jsOrEmpty
  split_ifs with h
  · exact h.symm
  · rfl

/-- C1: the user reputation scoring function returns exactly
clamp(100 + (responseRate - 50)·0.5 + (if averageResponseTime > 0 then
max(0, 24 - averageResponseTime)·2 else 0) + totalLinks·5, 0, 200); the
result lies in [0, 200] for arbitrary stat values, and the stats
(responseRate 80, averageResponseTime 5, totalLinks 3) score exactly
168. -/
theorem c1_reputation_score_clamped (s : UserStats) :
    reputationScoreOf s =
      max 0 (min 200
        (100 + (s.responseRate - 50) * 0.5 +
          (if 0 < s.averageResponseTime then
             max 0 (24 - s.averageResponseTime) * 2
           else 0) +
          s.totalLinks * 5))
  ∧ 0 ≤ reputationScoreOf s
  ∧ reputationScoreOf s ≤ 200
  ∧ reputationScoreOf
      { totalLinks := 3, averageResponseTime := 5, responseRate := 80,
        reputationScore := 100 } = 168 := by
  have hform : reputationScoreOf s =
      max 0 (min 200
        (100 + (s.responseRate - 50) * 0.5 +
          (if 0 < s.averageResponseTime then
             max 0 (24 - s.averageResponseTime) * 2
           else 0) +
          s.totalLinks * 5)) := by
    simp only [reputationScoreOf]
    split_ifs <;> ring_nf
  refine ⟨hform, ?_, ?_, ?_⟩
  · rw [hform]; exact le_max_left _ _
  · rw [hform]; exact max_le (by norm_num) (min_le_left _ _)
  · norm_num [reputationScoreOf]

/-- C2: the team badge function is total and deterministic with
first-match priority: SUPER_RESPONDERS iff responseRate ≥ 90 and
averageResponseTime ≤ 2; CLEAR_COMMUNICATORS iff that fails and
responseRate ≥ 70 and averageResponseTime ≤ 24; SLOW_STEADY iff both
fail and responseRate ≥ 50; GHOST_MODE iff all three fail; and
(95, 1) maps to SUPER_RESPONDERS while (40, 10) maps to GHOST_MODE. -/
theorem c2_team_badge_first_match (s : TeamStats) :
    (badgeFor s = TeamBadge.superResponders ↔
       90 ≤ s.responseRate ∧ s.averageResponseTime ≤ 2)
  ∧ (badgeFor s = TeamBadge.clearCommunicators ↔
       ¬(90 ≤ s.responseRate ∧ s.averageResponseTime ≤ 2) ∧
       70 ≤ s.responseRate ∧ s.averageResponseTime ≤ 24)
  ∧ (badgeFor s = TeamBadge.slowSteady ↔
       ¬(90 ≤ s.responseRate ∧ s.averageResponseTime ≤ 2) ∧
       ¬(70 ≤ s.responseRate ∧ s.averageResponseTime ≤ 24) ∧
       50 ≤ s.responseRate)
  ∧ (badgeFor s = TeamBadge.ghostMode ↔
       ¬(90 ≤ s.responseRate ∧ s.averageResponseTime ≤ 2) ∧
       ¬(70 ≤ s.responseRate ∧ s.averageResponseTime ≤ 24) ∧
       ¬50 ≤ s.responseRate)
  ∧ badgeFor
      { totalLinks := 0, averageResponseTime := 1, responseRate := 95,
        activeMembers := 0 } = TeamBadge.superResponders
  ∧ badgeFor
      { totalLinks := 0, averageResponseTime := 10, responseRate := 40,
        activeMembers := 0 } = TeamBadge.ghostMode := by
  refine ⟨?_, ?_, ?_, ?_, by norm_num [badgeFor], by norm_num [badgeFor]⟩ <;>
    · unfold badgeFor
      split_ifs <;> simp_all

/-- C3: startFlow succeeds exactly when the status is PENDING or
SCHEDULED, and then sets status IN_PROGRESS and records startedAt; from
any other status — COMPLETED in particular — it reports
InvalidStateTransition and returns the Link untouched. -/
theorem c3_start_transition (l : Link) (now : ℚ) :
    ((l.status = LinkStatus.pending ∨ l.status = LinkStatus.scheduled) →
       (startFlow l now).2 = none ∧
       (startFlow l now).1.status = LinkStatus.inProgress ∧
       (startFlow l now).1.startedAt = some now)
  ∧ ((startFlow l now).2 = none →
       l.status = LinkStatus.pending ∨ l.status = LinkStatus.scheduled)
  ∧ (l.status ≠ LinkStatus.pending ∧ l.status ≠ LinkStatus.scheduled →
       startFlow l now = (l, some LinkError.invalidStateTransition))
  ∧ (l.status = LinkStatus.completed →
       startFlow l now = (l, some LinkError.invalidStateTransition)) := by
  unfold startFlow
  split_ifs with h
  · refine ⟨fun hc => ?_, by simp, fun _ => rfl, fun _ => rfl⟩
    rcases hc with hc | hc
    · exact absurd hc h.2
    · exact absurd hc h.1
  · push_neg at h
    refine ⟨fun _ => ⟨rfl, ?_, ?_⟩, fun _ => ?_, fun hc => ?_, fun hc => ?_⟩
    · rw [Link.preSave_status]; rfl
    · rw [Link.preSave_startedAt]; rfl
    · by_cases hs : l.status = LinkStatus.scheduled
      · exact Or.inr hs
      · exact Or.inl (h hs)
    · exact absurd (h hc.2) hc.1
    · have := h (by rw [hc]; intro hx; cases hx)
      rw [hc] at this; cases this

/-- C4: completeFlow succeeds exactly when the status is IN_PROGRESS,
and then sets status COMPLETED, records completedAt and stores the given
duration and notes; from any other status — PENDING in particular — it
reports InvalidStateTransition and returns the Link untouched. -/
theorem c4_complete_transition (l : Link) (now duration : ℚ) (notes : String)
    (hdur : 0 ≤ duration) :
    (l.status = LinkStatus.inProgress →
       (completeFlow l now duration notes).2 = none ∧
       (completeFlow l now duration notes).1.status = LinkStatus.completed ∧
       (completeFlow l now duration notes).1.completedAt = some now ∧
       (completeFlow l now duration notes).1.duration = duration ∧
       (completeFlow l now duration notes).1.notes = notes)
  ∧ ((completeFlow l now duration notes).2 = none →
       l.status = LinkStatus.inProgress)
  ∧ (l.status ≠ LinkStatus.inProgress →
       completeFlow l now duration notes = (l, some LinkError.invalidStateTransition))
  ∧ (l.status = LinkStatus.pending →
       completeFlow l now duration notes = (l, some LinkError.invalidStateTransition)) := by
  clear hdur
  unfold completeFlow
  split_ifs with h
  · refine ⟨fun hc => absurd hc h, by simp, fun _ => rfl, fun _ => rfl⟩
  · push_neg at h
    refine ⟨fun _ => ⟨rfl, ?_, ?_, ?_, ?_⟩, fun _ => h, fun hc => absurd h hc,
      fun hc => ?_⟩
    · rw [Link.preSave_status, Link.completeMeeting_status]
    · rw [Link.preSave_completedAt, Link.completeMeeting_completedAt]
    · rw [Link.preSave_duration, Link.completeMeeting_duration, jsOrZero_eq]
    · rw [Link.preSave_notes, Link.completeMeeting_notes, jsOrEmpty_eq]
    · rw [hc] at h; cases h

/-- C4 witness: completing sampleInProgressLink with duration 30 and
notes "done" succeeds and records exactly those values. -/
theorem c4_complete_transition_witness :
    (completeFlow sampleInProgressLink 9 30 "done").2 = none ∧
    (completeFlow sampleInProgressLink 9 30 "done").1.status = LinkStatus.completed ∧
    (completeFlow sampleInProgressLink 9 30 "done").1.completedAt = some 9 ∧
    (completeFlow sampleInProgressLink 9 30 "done").1.duration = 30 ∧
    (completeFlow sampleInProgressLink 9 30 "done").1.notes = "done" :=
  (c4_complete_transition sampleInProgressLink 9 30 "done" (by norm_num)).1 rfl

theorem preSave_keeps_metricsInv (l : Link) (h : metricsInv l) :
    metricsInv l.preSave := by
  obtain ⟨h1, h2⟩ := h
  cases hp : l.modifiedParticipants <;> cases ho : l.modifiedOutcomes <;>
    by_cases hlen : l.outcomes.length = 0 <;>
      simp_all [metricsInv, Link.preSave, Nat.pos_iff_ne_zero]

theorem addOutcomeFlow_metricsInv (l : Link) (otype : OutcomeType)
    (d : String) (a : Option Nat) (due : Option ℚ) :
    metricsInv (addOutcomeFlow l otype d a due) := by
  cases hp : l.modifiedParticipants <;>
    simp [addOutcomeFlow, Link.addOutcome, Link.preSave, metricsInv, hp,
      Nat.succ_pos, Nat.succ_ne_zero]

theorem completeMeeting_keeps_metricsInv (l : Link) (now d : ℚ) (n : String)
    (h : metricsInv l) : metricsInv (l.completeMeeting now d n) := by
  obtain ⟨h1, h2⟩ := h
  by_cases hlen : l.outcomes.length = 0 <;>
    simp_all [metricsInv, Link.completeMeeting, Nat.pos_iff_ne_zero]

/-- C5: after an outcome mutation — addOutcome followed by its save, or
meeting completion — metrics.outcomeCount equals the number of outcomes
and metrics.completionRate is 0 on no outcomes and exactly
100·completed/total otherwise. -/
theorem c5_completion_rate_invariant (l : Link) (h : metricsInv l)
    (otype : OutcomeType) (d : String) (a : Option Nat) (due : Option ℚ)
    (now dur : ℚ) (ns : String) :
    metricsInv (addOutcomeFlow l otype d a due) ∧
    metricsInv (completeFlow l now dur ns).1 := by
  refine ⟨addOutcomeFlow_metricsInv l otype d a due, ?_⟩
  unfold completeFlow
  split_ifs with hs
  · exact ⟨h.1, h.2⟩
  · exact preSave_keeps_metricsInv _
      (completeMeeting_keeps_metricsInv _ _ _ _ ⟨h.1, h.2⟩)

/-- C5 witness: on a concrete link with one completed and one pending
outcome the invariant holds after adding a blocker outcome and after the
completion flow. -/
theorem c5_completion_rate_invariant_witness :
    metricsInv (addOutcomeFlow sampleCompletedLink OutcomeType.blocker
      "api blocked" none none) ∧
    metricsInv (completeFlow sampleCompletedLink 9 30 "n").1 :=
  c5_completion_rate_invariant sampleCompletedLink
    (by constructor <;>
          simp [metricsInv, sampleCompletedLink, sampleLink,
            completedOutcomeCount, List.filter_cons] <;>
          norm_num)
    OutcomeType.blocker "api blocked" none none 9 30 "n"

/-- C6: updateStats folds a positive responseTimeSample into
averageResponseTime by exactly
(oldAvg·(responseRate/100) + sample) / (responseRate/100 + 1) with the
pre-call responseRate, leaves the average alone otherwise, and
overwrites responseRate with responseRateValue exactly when that value
is positive. -/
theorem c6_update_stats_formulas (t : Team) (now lc rt rr : ℚ) :
    (0 < rt →
       (t.updateStats now lc rt rr).stats.averageResponseTime =
         (t.stats.averageResponseTime * (t.stats.responseRate / 100) + rt) /
           (t.stats.responseRate / 100 + 1))
  ∧ (¬0 < rt →
       (t.updateStats now lc rt rr).stats.averageResponseTime =
         t.stats.averageResponseTime)
  ∧ (0 < rr → (t.updateStats now lc rt rr).stats.responseRate = rr)
  ∧ (¬0 < rr →
       (t.updateStats now lc rt rr).stats.responseRate = t.stats.responseRate) := by
  unfold Team.updateStats
  split_ifs with h1 h2 h3 <;>
    refine ⟨fun h => ?_, fun h => ?_, fun h => ?_, fun h => ?_⟩ <;>
    first | rfl | tauto

/-- C7 counterexample: updateStats neither clamps nor rejects — on a
team with totalLinks 0, a delta of -1 drives totalLinks to -1. -/
theorem c7_counterexample :
    0 ≤ sampleTeam.stats.totalLinks ∧
    (sampleTeam.updateStats 0 (-1) 0 0).stats.totalLinks < 0 := by
  constructor <;> norm_num [Team.updateStats, sampleTeam]

/-- C7 as amended: updateStats adds linkCountDelta to totalLinks with no
clamp and no rejection, so totalLinks stays non-negative for every
non-negative delta (the repository's only call site passes 1), while a
negative delta below -totalLinks drives it negative. -/
theorem c7_total_links_nonneg_delta (t : Team) (now lc rt rr : ℚ)
    (h0 : 0 ≤ t.stats.totalLinks) (hd : 0 ≤ lc) :
    0 ≤ (t.updateStats now lc rt rr).stats.totalLinks ∧
    (t.updateStats now lc rt rr).stats.totalLinks = t.stats.totalLinks + lc := by
  have he : (t.updateStats now lc rt rr).stats.totalLinks =
      t.stats.totalLinks + lc := by
    unfold Team.updateStats
    split_ifs <;> rfl
  exact ⟨he ▸ add_nonneg h0 hd, he⟩

/-- C7 witness: the link-creation delta 1 on sampleTeam keeps totalLinks
non-negative. -/
theorem c7_total_links_nonneg_delta_witness :
    0 ≤ (sampleTeam.updateStats 3 1 0 0).stats.totalLinks ∧
    (sampleTeam.updateStats 3 1 0 0).stats.totalLinks =
      sampleTeam.stats.totalLinks + 1 :=
  c7_total_links_nonneg_delta sampleTeam 3 1 0 0 (by norm_num [sampleTeam])
    (by norm_num)

theorem upsertMemberRole_length (u : Nat) (r : TeamRole) :
    ∀ ms : List TeamMember, (upsertMemberRole u r ms).length = ms.length := by
  intro ms
  induction ms with
  | nil => rfl
  | cons m tl ih =>
    unfold upsertMemberRole
    split_ifs <;> simp [ih]

theorem upsertMemberRole_mem (u : Nat) (r : TeamRole) :
    ∀ ms : List TeamMember, (∃ m ∈ ms, m.userId = u) →
      ∃ m ∈ upsertMemberRole u r ms, m.userId = u ∧ m.role = r ∧
        m.isActive = true := by
  intro ms
  induction ms with
  | nil => rintro ⟨m, hm, _⟩; cases hm
  | cons m tl ih =>
    intro hex
    unfold upsertMemberRole
    split_ifs with hm
    · exact ⟨_, List.mem_cons_self _ _, by simpa using hm, rfl, rfl⟩
    · have : ∃ x ∈ tl, x.userId = u := by
        rcases hex with ⟨x, hx, hxu⟩
        rcases List.mem_cons.mp hx with hx | hx
        · subst hx
          exact absurd (by simpa using hxu) (by simpa using hm)
        · exact ⟨x, hx, hxu⟩
      rcases ih this with ⟨x, hx, hxs⟩
      exact ⟨x, List.mem_cons_of_mem _ hx, hxs⟩

/-- C8: addMember and removeMember keep stats.activeMembers equal to the
number of active member entries; addMember on a present userRef
overwrites that entry's role, reactivates it and appends no duplicate;
removeMember on an absent userRef changes nothing. -/
theorem c8_membership_registry (t : Team) (now : ℚ) (u : Nat) (r : TeamRole)
    (hinv : activeMembersInv t) :
    activeMembersInv (t.addMember now u r)
  ∧ activeMembersInv (t.removeMember u)
  ∧ ((∃ m ∈ t.members, m.userId = u) →
       (t.addMember now u r).members.length = t.members.length ∧
       ∃ m ∈ (t.addMember now u r).members,
         m.userId = u ∧ m.role = r ∧ m.isActive = true)
  ∧ ((∀ m ∈ t.members, m.userId ≠ u) → t.removeMember u = t) := by
  refine ⟨?_, ?_, fun hex => ⟨?_, ?_⟩, fun habs => ?_⟩
  · unfold activeMembersInv Team.addMember
    split_ifs <;> rfl
  · unfold activeMembersInv Team.removeMember
    split_ifs
    · rfl
    · exact hinv
  · have hany : t.members.any (fun m => m.userId == u) = true := by
      rcases hex with ⟨m, hm, hmu⟩
      exact List.any_eq_true.mpr ⟨m, hm, by simpa using hmu⟩
    unfold Team.addMember
    rw [if_pos hany]
    exact upsertMemberRole_length u r t.members
  · have hany : t.members.any (fun m => m.userId == u) = true := by
      rcases hex with ⟨m, hm, hmu⟩
      exact List.any_eq_true.mpr ⟨m, hm, by simpa using hmu⟩
    unfold Team.addMember
    rw [if_pos hany]
    exact upsertMemberRole_mem u r t.members hex
  · have hany : ¬t.members.any (fun m => m.userId == u) = true := by
      rw [List.any_eq_true]
      rintro ⟨m, hm, hmu⟩
      exact habs m hm (by simpa using hmu)
    unfold Team.removeMember
    rw [if_neg hany]

/-- C8 witness: on a team holding userId 1 as an inactive PM, addMember
(1, DEV) reactivates that entry with role DEV without growing the list,
and removeMember on the absent userId 2 is the identity. -/
theorem c8_membership_registry_witness :
    activeMembersInv (sampleTeamInactive.addMember 3 1 TeamRole.dev)
  ∧ activeMembersInv (sampleTeamInactive.removeMember 1)
  ∧ (sampleTeamInactive.addMember 3 1 TeamRole.dev).members.length =
      sampleTeamInactive.members.length
  ∧ (∃ m ∈ (sampleTeamInactive.addMember 3 1 TeamRole.dev).members,
       m.userId = 1 ∧ m.role = TeamRole.dev ∧ m.isActive = true)
  ∧ sampleTeamInactive.removeMember 2 = sampleTeamInactive := by
  have h1 := c8_membership_registry sampleTeamInactive 3 1 TeamRole.dev (by decide)
  have h2 := c8_membership_registry sampleTeamInactive 3 2 TeamRole.dev (by decide)
  exact ⟨h1.1, h1.2.1, (h1.2.2.1 (by decide)).1, (h1.2.2.1 (by decide)).2,
    h2.2.2.2 (by decide)⟩

/-- C9: at a freshly created user whose score is consistent (75), the
link-creation flow's user update — a findByIdAndUpdate $inc on
'stats.linksCreated' that runs no pre-save hook and touches no schema
stats field — leaves totalLinks 0 and the score 75, while the update
the spec describes (increment stats.totalLinks, recompute) would yield
totalLinks 1 and score 80. -/
theorem c9_link_creation_skips_recompute :
    linkCreationUserUpdate sampleUser = sampleUser
  ∧ (linkCreationUserUpdate sampleUser).stats.totalLinks = 0
  ∧ (linkCreationUserUpdate sampleUser).stats.reputationScore = 75
  ∧ sampleUser.stats.reputationScore = reputationScoreOf sampleUser.stats
  ∧ (specLinkCreationUserUpdate sampleUser).stats.totalLinks = 1
  ∧ (specLinkCreationUserUpdate sampleUser).stats.reputationScore = 80
  ∧ (linkCreationUserUpdate sampleUser).stats.reputationScore ≠
      (specLinkCreationUserUpdate sampleUser).stats.reputationScore := by
  refine ⟨rfl, rfl, rfl, ?_, ?_, ?_, ?_⟩ <;>
    norm_num [linkCreationUserUpdate, specLinkCreationUserUpdate,
      User.calculateReputationScore, reputationScoreOf, sampleUser]

/-- C10: updateStats changes only stats.totalLinks,
stats.averageResponseTime, stats.responseRate and lastActivity — every
other Team field, including members, stats.activeMembers,
reputationBadge, status and name, is untouched; the average is untouched
when the sample is non-positive and the rate when the value is
non-positive. -/
theorem c10_update_stats_frame (t : Team) (now lc rt rr : ℚ) :
    (t.updateStats now lc rt rr).name = t.name
  ∧ (t.updateStats now lc rt rr).description = t.description
  ∧ (t.updateStats now lc rt rr).productName = t.productName
  ∧ (t.updateStats now lc rt rr).productVersion = t.productVersion
  ∧ (t.updateStats now lc rt rr).owner = t.owner
  ∧ (t.updateStats now lc rt rr).members = t.members
  ∧ (t.updateStats now lc rt rr).settings = t.settings
  ∧ (t.updateStats now lc rt rr).reputationBadge = t.reputationBadge
  ∧ (t.updateStats now lc rt rr).status = t.status
  ∧ (t.updateStats now lc rt rr).tags = t.tags
  ∧ (t.updateStats now lc rt rr).stats.activeMembers = t.stats.activeMembers
  ∧ (t.updateStats now lc rt rr).lastActivity = now
  ∧ (¬0 < rt →
       (t.updateStats now lc rt rr).stats.averageResponseTime =
         t.stats.averageResponseTime)
  ∧ (¬0 < rr →
       (t.updateStats now lc rt rr).stats.responseRate = t.stats.responseRate) := by
  unfold Team.updateStats
  split_ifs with h1 h2 h3 <;>
    refine ⟨rfl, rfl, rfl, rfl, rfl, rfl, rfl, rfl, rfl, rfl, rfl, rfl,
      fun h => ?_, fun h => ?_⟩ <;>
    first | rfl | tauto

end Tether
